import Mathlib

/-!
Verification of `examples/3d/load_gltf_toon.rs`.

This file shallowly embeds the non-engine logic of the example:

* the `ToonShader` material-extension parameter block and its
  `FromStandardMaterial::from_standard_material` adapter, including a model of
  `serde_json::from_str::<ToonShader>` (JSON syntax plus the serde-derived
  `Deserialize` impls for `ToonShader` and `bevy_color::LinearRgba`);
* the `MaterialExtension::fragment_shader` binding;
* the `animate_light_direction` per-frame system, with `glam`'s
  `Quat::from_euler(EulerRot::ZYX, ..)` spelled out over the reals.

Modelling conventions:
* `f32` values flowing through parsing are modelled as exact rationals (`ℚ`):
  every JSON number literal denotes the exact rational it spells, and no
  claim under study depends on `f32` rounding.  `f32` values flowing through
  the light animation are modelled as reals (`ℝ`), since the rotation code is
  trigonometric.
* `serde_json`'s `Result<T, Error>` is modelled as `Except String T`; the
  exact error message texts are not modelled (the adapter only ever asks
  whether the result is `Ok`).
* `serde_json::from_str` deserializes in one streaming pass; the model parses
  to a `Json` tree first and then runs the derived `Deserialize` logic on the
  tree.  Success values and the success/failure split agree.
* the derived `Deserialize` for a struct (no `deny_unknown_fields`) accepts a
  JSON object — unknown keys ignored, duplicate known keys an error, missing
  keys an error — or a JSON array holding exactly the fields in declaration
  order; both forms are modelled.
* `\u` escapes are decoded when they denote a Unicode scalar value; surrogate
  pair recombination is not modelled (no claim exercises it).
-/

namespace LoadGltfToon

/-- JSON values (`serde_json::Value` shape), numbers as exact rationals. -/
inductive Json where
  | null
  | bool (b : Bool)
  | num (q : ℚ)
  | str (s : String)
  | arr (elems : List Json)
  | obj (members : List (String × Json))

/-- JSON whitespace: space, tab, line feed, carriage return. -/
def isJsonWs (c : Char) : Bool :=
  c == ' ' || c == '\t' || c == '\n' || c == '\r'

/-- Drop leading JSON whitespace. -/
def skipWs : List Char → List Char
  | [] => []
  | c :: cs => if isJsonWs c then skipWs cs else c :: cs

/-- Split a longest leading run of ASCII digits from the input. -/
def takeDigits : List Char → (List Char × List Char)
  | [] => ([], [])
  | c :: cs =>
    if c.isDigit then
      let (ds, rest) := takeDigits cs
      (c :: ds, rest)
    else ([], c :: cs)

/-- Value of a digit string, most significant digit first. -/
def digitsVal (ds : List Char) : Nat :=
  ds.foldl (fun a c => a * 10 + (c.toNat - 48)) 0

/-- `10 ^ e` over the rationals for a signed exponent. -/
def tenPow : Int → ℚ
  | .ofNat n => (10 : ℚ) ^ n
  | .negSucc n => 1 / (10 : ℚ) ^ (n + 1)

/-- Fractional part of a JSON number: a `.` must be followed by at least one
digit; absence of a `.` yields no fractional digits.  Returns the fractional
digits and the remaining input, or `none` on a syntax error. -/
def parseFrac : List Char → Option (List Char × List Char)
  | '.' :: r =>
    match takeDigits r with
    | ([], _) => none
    | (ds, r2) => some (ds, r2)
  | cs => some (([] : List Char), cs)

/-- Exponent digits with optional sign, after the `e`/`E` marker. -/
def parseExpTail (cs : List Char) : Option (Int × List Char) :=
  let (sgn, cs1) :=
    match cs with
    | '+' :: r => ((1 : Int), r)
    | '-' :: r => ((-1 : Int), r)
    | _ => ((1 : Int), cs)
  match takeDigits cs1 with
  | ([], _) => none
  | (ds, r) => some (sgn * (digitsVal ds : Int), r)

/-- Optional exponent part of a JSON number. -/
def parseExp : List Char → Option (Int × List Char)
  | 'e' :: r => parseExpTail r
  | 'E' :: r => parseExpTail r
  | cs => some ((0 : Int), cs)

/-- JSON number: `-? int frac? exp?` with `int = 0 | [1-9][0-9]*` (a leading
`0` is not followed by further integer digits).  Yields the exact rational
value. -/
def parseNumber (cs : List Char) : Option (ℚ × List Char) :=
  let (neg, cs1) :=
    match cs with
    | '-' :: rest => (true, rest)
    | _ => (false, cs)
  match cs1 with
  | [] => none
  | c :: rest =>
    if c.isDigit then
      let (intDs, cs2) := if c = '0' then ([c], rest) else takeDigits cs1
      match parseFrac cs2 with
      | none => none
      | some (fracDs, cs3) =>
        match parseExp cs3 with
        | none => none
        | some (e, cs4) =>
          let mantissa : ℚ :=
            (digitsVal intDs : ℚ) + (digitsVal fracDs : ℚ) / (10 : ℚ) ^ fracDs.length
          some ((if neg then -1 else 1) * mantissa * tenPow e, cs4)
    else none

/-- Value of an ASCII hex digit, if any. -/
def hexVal (c : Char) : Option Nat :=
  let n := c.toNat
  if 48 ≤ n ∧ n ≤ 57 then some (n - 48)
  else if 97 ≤ n ∧ n ≤ 102 then some (n - 87)
  else if 65 ≤ n ∧ n ≤ 70 then some (n - 55)
  else none

/-- Body of a JSON string after the opening quote: unescaped characters up to
the closing quote, `\` escapes, `\u` scalar escapes; raw control characters
below `0x20` are rejected. -/
def parseStringBody : List Char → Option (List Char × List Char)
  | [] => none
  | '"' :: rest => some ([], rest)
  | '\\' :: rest =>
    match rest with
    | [] => none
    | e :: rest2 =>
      match e with
      | '"' => (parseStringBody rest2).map fun p => ('"' :: p.1, p.2)
      | '\\' => (parseStringBody rest2).map fun p => ('\\' :: p.1, p.2)
      | '/' => (parseStringBody rest2).map fun p => ('/' :: p.1, p.2)
      | 'b' => (parseStringBody rest2).map fun p => (Char.ofNat 8 :: p.1, p.2)
      | 'f' => (parseStringBody rest2).map fun p => (Char.ofNat 12 :: p.1, p.2)
      | 'n' => (parseStringBody rest2).map fun p => ('\n' :: p.1, p.2)
      | 'r' => (parseStringBody rest2).map fun p => ('\r' :: p.1, p.2)
      | 't' => (parseStringBody rest2).map fun p => ('\t' :: p.1, p.2)
      | 'u' =>
        match rest2 with
        | h1 :: h2 :: h3 :: h4 :: rest3 =>
          match hexVal h1, hexVal h2, hexVal h3, hexVal h4 with
          | some a, some b, some c, some d =>
            let n := ((a * 16 + b) * 16 + c) * 16 + d
            if Nat.isValidChar n then
              (parseStringBody rest3).map fun p => (Char.ofNat n :: p.1, p.2)
            else none
          | _, _, _, _ => none
        | _ => none
      | _ => none
  | c :: rest =>
    if c.toNat < 32 then none
    else (parseStringBody rest).map fun p => (c :: p.1, p.2)

mutual

/-- One JSON value (fuel-indexed recursive descent). -/
def parseValue : Nat → List Char → Option (Json × List Char)
  | 0, _ => none
  | fuel + 1, cs =>
    match skipWs cs with
    | 'n' :: 'u' :: 'l' :: 'l' :: rest => some (.null, rest)
    | 't' :: 'r' :: 'u' :: 'e' :: rest => some (.bool true, rest)
    | 'f' :: 'a' :: 'l' :: 's' :: 'e' :: rest => some (.bool false, rest)
    | '"' :: rest => (parseStringBody rest).map fun p => (.str ⟨p.1⟩, p.2)
    | '[' :: rest =>
      match skipWs rest with
      | ']' :: rest2 => some (.arr [], rest2)
      | cs2 => (parseElems fuel cs2).map fun p => (.arr p.1, p.2)
    | '\x7b' :: rest =>
      match skipWs rest with
      | '\x7d' :: rest2 => some (.obj [], rest2)
      | cs2 => (parseMembers fuel cs2).map fun p => (.obj p.1, p.2)
    | c :: rest =>
      if c = '-' ∨ c.isDigit then
        (parseNumber (c :: rest)).map fun p => (.num p.1, p.2)
      else none
    | [] => none

/-- Non-empty comma-separated array elements, up to and including `]`. -/
def parseElems : Nat → List Char → Option (List Json × List Char)
  | 0, _ => none
  | fuel + 1, cs =>
    match parseValue fuel cs with
    | none => none
    | some (j, rest) =>
      match skipWs rest with
      | ',' :: rest2 => (parseElems fuel rest2).map fun p => (j :: p.1, p.2)
      | ']' :: rest2 => some ([j], rest2)
      | _ => none

/-- Non-empty comma-separated object members, up to and including the closing
brace. -/
def parseMembers : Nat → List Char → Option (List (String × Json) × List Char)
  | 0, _ => none
  | fuel + 1, cs =>
    match skipWs cs with
    | '"' :: rest =>
      match parseStringBody rest with
      | none => none
      | some (key, rest2) =>
        match skipWs rest2 with
        | ':' :: rest3 =>
          match parseValue fuel rest3 with
          | none => none
          | some (j, rest4) =>
            match skipWs rest4 with
            | ',' :: rest5 =>
              (parseMembers fuel rest5).map fun p => ((⟨key⟩, j) :: p.1, p.2)
            | '\x7d' :: rest5 => some ([(⟨key⟩, j)], rest5)
            | _ => none
        | _ => none
    | _ => none

end

/-- Parse a complete JSON document: one value, with only whitespace allowed
after it (`serde_json::from_str` rejects trailing characters). -/
def json_from_str (s : String) : Option Json :=
  match parseValue (2 * s.length + 2) s.data with
  | some (j, rest) => if skipWs rest = [] then some j else none
  | none => none

/-! ## The serde-derived deserialization targets

`bevy_color::LinearRgba` is `struct LinearRgba { red, green, blue, alpha: f32 }`
with a plain `#[derive(Deserialize)]`, and the example declares
`struct ToonShader { cutoff: f32, dark: LinearRgba, light: LinearRgba }`,
also with a plain derive (no `deny_unknown_fields`). -/

/-- `bevy_color::LinearRgba`, `f32` components modelled as `ℚ`. -/
structure LinearRgba where
  red : ℚ
  green : ℚ
  blue : ℚ
  alpha : ℚ
deriving Repr, DecidableEq

/-- `LinearRgba::rgb`: construct from red, green and blue with `alpha: 1.0`. -/
def LinearRgba.rgb (red green blue : ℚ) : LinearRgba :=
  { red := red, green := green, blue := blue, alpha := 1 }

/-- The `ToonShader` material-extension parameter block of the example. -/
structure ToonShader where
  cutoff : ℚ
  dark : LinearRgba
  light : LinearRgba
deriving Repr, DecidableEq

/-- `serde_json`'s `deserialize_f32`: any JSON number, nothing else. -/
def f32FromJson : Json → Except String ℚ
  | .num q => .ok q
  | _ => .error "invalid type, expected f32"

/-- Derived `visit_map` for `LinearRgba`: walk the object members in order,
filling `red`, `green`, `blue`, `alpha`; a repeated known key is a duplicate
field error, an unknown key is ignored, and every field must be present by the
end. -/
def rgbaFromPairs :
    List (String × Json) → Option ℚ → Option ℚ → Option ℚ → Option ℚ →
    Except String LinearRgba
  | [], or, og, ob, oa =>
    match or, og, ob, oa with
    | some r, some g, some b, some a =>
      .ok { red := r, green := g, blue := b, alpha := a }
    | none, _, _, _ => .error "missing field red"
    | _, none, _, _ => .error "missing field green"
    | _, _, none, _ => .error "missing field blue"
    | _, _, _, none => .error "missing field alpha"
  | (k, v) :: rest, or, og, ob, oa =>
    if k = "red" then
      match or with
      | some _ => .error "duplicate field red"
      | none => (f32FromJson v).bind fun q => rgbaFromPairs rest (some q) og ob oa
    else if k = "green" then
      match og with
      | some _ => .error "duplicate field green"
      | none => (f32FromJson v).bind fun q => rgbaFromPairs rest or (some q) ob oa
    else if k = "blue" then
      match ob with
      | some _ => .error "duplicate field blue"
      | none => (f32FromJson v).bind fun q => rgbaFromPairs rest or og (some q) oa
    else if k = "alpha" then
      match oa with
      | some _ => .error "duplicate field alpha"
      | none => (f32FromJson v).bind fun q => rgbaFromPairs rest or og ob (some q)
    else rgbaFromPairs rest or og ob oa

/-- Derived `Deserialize` for `LinearRgba`: a JSON object (any key order), or a
JSON array of exactly the four fields in declaration order; anything else is a
type error. -/
def linearRgbaFromJson : Json → Except String LinearRgba
  | .obj kvs => rgbaFromPairs kvs none none none none
  | .arr [jr, jg, jb, ja] => do
    let r ← f32FromJson jr
    let g ← f32FromJson jg
    let b ← f32FromJson jb
    let a ← f32FromJson ja
    return { red := r, green := g, blue := b, alpha := a }
  | .arr _ => .error "invalid length, expected struct LinearRgba with 4 elements"
  | _ => .error "invalid type, expected struct LinearRgba"

/-- Derived `visit_map` for `ToonShader` (same discipline as
`rgbaFromPairs`). -/
def toonFromPairs :
    List (String × Json) → Option ℚ → Option LinearRgba → Option LinearRgba →
    Except String ToonShader
  | [], oc, od, ol =>
    match oc, od, ol with
    | some c, some d, some l => .ok { cutoff := c, dark := d, light := l }
    | none, _, _ => .error "missing field cutoff"
    | _, none, _ => .error "missing field dark"
    | _, _, none => .error "missing field light"
  | (k, v) :: rest, oc, od, ol =>
    if k = "cutoff" then
      match oc with
      | some _ => .error "duplicate field cutoff"
      | none => (f32FromJson v).bind fun q => toonFromPairs rest (some q) od ol
    else if k = "dark" then
      match od with
      | some _ => .error "duplicate field dark"
      | none => (linearRgbaFromJson v).bind fun d => toonFromPairs rest oc (some d) ol
    else if k = "light" then
      match ol with
      | some _ => .error "duplicate field light"
      | none => (linearRgbaFromJson v).bind fun l => toonFromPairs rest oc od (some l)
    else toonFromPairs rest oc od ol

/-- Derived `Deserialize` for `ToonShader`: a JSON object (any key order,
unknown keys ignored), or a JSON array of exactly the three fields in
declaration order. -/
def toonShaderFromJson : Json → Except String ToonShader
  | .obj kvs => toonFromPairs kvs none none none
  | .arr [jc, jd, jl] => do
    let c ← f32FromJson jc
    let d ← linearRgbaFromJson jd
    let l ← linearRgbaFromJson jl
    return { cutoff := c, dark := d, light := l }
  | .arr _ => .error "invalid length, expected struct ToonShader with 3 elements"
  | _ => .error "invalid type, expected struct ToonShader"

/-- `serde_json::from_str::<ToonShader>`: parse the document, then run the
derived `Deserialize`. -/
def serde_json_from_str (s : String) : Except String ToonShader :=
  match json_from_str s with
  | none => .error "JSON syntax error"
  | some j => toonShaderFromJson j

/-! ## The adapter and the shader binding -/

/-- Stand-in for `bevy_pbr::StandardMaterial`; the adapter ignores its
argument entirely, so only a few representative fields are carried. -/
structure StandardMaterial where
  base_color : LinearRgba
  perceptual_roughness : ℚ
  metallic : ℚ
deriving Repr, DecidableEq

/-- `FromStandardMaterial::from_standard_material` for `ToonShader`:

```rust
gltf_extras
    .and_then(|s| serde_json::from_str::<ToonShader>(s).ok())
    .unwrap_or(ToonShader {
        cutoff: 0.5,
        dark: LinearRgba::rgb(0.4, 0.4, 0.4),
        light: LinearRgba::rgb(0.8, 0.8, 0.8),
    })
```

`Option::and_then` is `Option.bind`, `Result::ok` is `Except.toOption`,
`Option::unwrap_or` is `Option.getD`. -/
def ToonShader.from_standard_material
    (_m : StandardMaterial) (gltf_extras : Option String) : ToonShader :=
  (gltf_extras.bind fun s => (serde_json_from_str s).toOption).getD
    { cutoff := 0.5
      dark := LinearRgba.rgb 0.4 0.4 0.4
      light := LinearRgba.rgb 0.8 0.8 0.8 }

/-- `bevy_render`'s `ShaderRef`. -/
inductive ShaderRef where
  | default
  | handle (id : Nat)
  | path (assetPath : String)
deriving Repr, DecidableEq

/-- `MaterialExtension::fragment_shader` for `ToonShader`:
`"shaders/toon_shader.wgsl".into()` builds the `Path` variant. -/
def ToonShader.fragment_shader : ShaderRef :=
  .path "shaders/toon_shader.wgsl"

/-- Decidable equality for `Except`, to let witnesses evaluate parse
results. -/
def Except.decEq {ε α : Type} [DecidableEq ε] [DecidableEq α] :
    DecidableEq (Except ε α) := fun x y =>
  match x, y with
  | .ok a, .ok b =>
    if h : a = b then isTrue (by rw [h]) else isFalse (by simp [h])
  | .error a, .error b =>
    if h : a = b then isTrue (by rw [h]) else isFalse (by simp [h])
  | .ok _, .error _ => isFalse (by simp)
  | .error _, .ok _ => isFalse (by simp)

instance {ε α : Type} [DecidableEq ε] [DecidableEq α] :
    DecidableEq (Except ε α) := Except.decEq

/-! ## The light animator

`animate_light_direction` iterates `Query<&mut Transform, With<DirectionalLight>>`
and writes

```rust
transform.rotation = Quat::from_euler(
    EulerRot::ZYX,
    0.0,
    time.elapsed_seconds() * PI / 5.0,
    -FRAC_PI_4,
);
```

`glam`'s `Quat` and its constructors are embedded over the reals (`f32`
trigonometry modelled exactly). -/

/-- `glam::Vec3` over the reals. -/
structure Vec3 where
  x : ℝ
  y : ℝ
  z : ℝ

/-- `glam::Quat` over the reals, `(x, y, z, w)` with `w` the scalar part. -/
structure Quat where
  x : ℝ
  y : ℝ
  z : ℝ
  w : ℝ

/-- Hamilton product, as in `glam`'s `Mul<Quat> for Quat`. -/
noncomputable def Quat.mul (a b : Quat) : Quat :=
  { x := a.w * b.x + a.x * b.w + a.y * b.z - a.z * b.y
    y := a.w * b.y - a.x * b.z + a.y * b.w + a.z * b.x
    z := a.w * b.z + a.x * b.y - a.y * b.x + a.z * b.w
    w := a.w * b.w - a.x * b.x - a.y * b.y - a.z * b.z }

/-- `glam::Quat::from_rotation_x`. -/
noncomputable def Quat.from_rotation_x (angle : ℝ) : Quat :=
  { x := Real.sin (angle / 2), y := 0, z := 0, w := Real.cos (angle / 2) }

/-- `glam::Quat::from_rotation_y`. -/
noncomputable def Quat.from_rotation_y (angle : ℝ) : Quat :=
  { x := 0, y := Real.sin (angle / 2), z := 0, w := Real.cos (angle / 2) }

/-- `glam::Quat::from_rotation_z`. -/
noncomputable def Quat.from_rotation_z (angle : ℝ) : Quat :=
  { x := 0, y := 0, z := Real.sin (angle / 2), w := Real.cos (angle / 2) }

/-- The Euler orders used by the example. -/
inductive EulerRot where
  | ZYX

/-- `glam::Quat::from_euler`: for the intrinsic `ZYX` order,
`from_rotation_z(a) * from_rotation_y(b) * from_rotation_x(c)`. -/
noncomputable def Quat.from_euler : EulerRot → ℝ → ℝ → ℝ → Quat
  | .ZYX, a, b, c =>
    ((Quat.from_rotation_z a).mul (Quat.from_rotation_y b)).mul
      (Quat.from_rotation_x c)

/-- Componentwise negation of a quaternion (`-q` in `glam`). -/
noncomputable def Quat.neg (q : Quat) : Quat :=
  { x := -q.x, y := -q.y, z := -q.z, w := -q.w }

/-- `glam`'s rotation of a vector by a quaternion (`Mul<Vec3> for Quat`):
`t = 2 (q.xyz × v); v + q.w t + q.xyz × t`. -/
noncomputable def Quat.rotate (q : Quat) (v : Vec3) : Vec3 :=
  let tx : ℝ := 2 * (q.y * v.z - q.z * v.y)
  let ty : ℝ := 2 * (q.z * v.x - q.x * v.z)
  let tz : ℝ := 2 * (q.x * v.y - q.y * v.x)
  { x := v.x + q.w * tx + (q.y * tz - q.z * ty)
    y := v.y + q.w * ty + (q.z * tx - q.x * tz)
    z := v.z + q.w * tz + (q.x * ty - q.y * tx) }

/-- `bevy_transform::Transform` over the reals. -/
structure Transform where
  translation : Vec3
  rotation : Quat
  scale : Vec3

/-- The slice of `bevy_time::Time` the system reads. -/
structure Time where
  elapsed_seconds : ℝ

/-- An entity as seen by the system's world: whether it carries a
`DirectionalLight` component, and its `Transform`. -/
structure LightEntity where
  hasDirectionalLight : Bool
  transform : Transform

/-- The quaternion the system computes at elapsed time `t`:
`Quat::from_euler(EulerRot::ZYX, 0.0, t * PI / 5.0, -FRAC_PI_4)`. -/
noncomputable def light_rotation (t : ℝ) : Quat :=
  Quat.from_euler .ZYX 0 (t * Real.pi / 5) (-(Real.pi / 4))

/-- The `animate_light_direction` system: for every entity matched by
`Query<&mut Transform, With<DirectionalLight>>`, overwrite
`transform.rotation` with `light_rotation`; other entities are untouched. -/
noncomputable def animate_light_direction
    (time : Time) (world : List LightEntity) : List LightEntity :=
  world.map fun e =>
    if e.hasDirectionalLight then
      { e with transform :=
          { e.transform with rotation := light_rotation time.elapsed_seconds } }
    else e

/-! ## Helper lemmas -/

/-- Componentwise extensionality for the embedded `Quat`. -/
theorem quat_ext_components {a b : Quat}
    (hx : a.x = b.x) (hy : a.y = b.y) (hz : a.z = b.z) (hw : a.w = b.w) :
    a = b := by
  cases a; cases b; simp_all

/-- Componentwise extensionality for the embedded `Vec3`. -/
theorem vec3_ext_components {a b : Vec3}
    (hx : a.x = b.x) (hy : a.y = b.y) (hz : a.z = b.z) : a = b := by
  cases a; cases b; simp_all

/-- Closed form of the quaternion the system writes: with the zero `Z` angle
the product collapses to the `Y`-by-`X` composition. -/
theorem light_rotation_eval (t : ℝ) :
    light_rotation t =
      { x := Real.cos (t * Real.pi / 10) * Real.sin (-(Real.pi / 8))
        y := Real.sin (t * Real.pi / 10) * Real.cos (-(Real.pi / 8))
        z := -(Real.sin (t * Real.pi / 10) * Real.sin (-(Real.pi / 8)))
        w := Real.cos (t * Real.pi / 10) * Real.cos (-(Real.pi / 8)) } := by
  have hb : t * Real.pi / 5 / 2 = t * Real.pi / 10 := by ring
  have hc : -(Real.pi / 4) / 2 = -(Real.pi / 8) := by ring
  simp only [light_rotation, Quat.from_euler, Quat.from_rotation_x,
    Quat.from_rotation_y, Quat.from_rotation_z, Quat.mul, zero_div,
    Real.sin_zero, Real.cos_zero, hb, hc]
  refine quat_ext_components ?_ ?_ ?_ ?_ <;> simp

/-- Advancing the elapsed time by `10` seconds negates the computed
quaternion (the `Y` half-angle advances by `π`). -/
theorem light_rotation_add_ten (t : ℝ) :
    light_rotation (t + 10) = (light_rotation t).neg := by
  rw [light_rotation_eval, light_rotation_eval]
  have hb : (t + 10) * Real.pi / 10 = t * Real.pi / 10 + Real.pi := by ring
  rw [hb, Real.cos_add_pi, Real.sin_add_pi]
  refine quat_ext_components ?_ ?_ ?_ ?_ <;> simp [Quat.neg]

/-- Advancing the elapsed time by `20` seconds reproduces the computed
quaternion exactly (the `Y` half-angle advances by `2π`). -/
theorem light_rotation_add_twenty (t : ℝ) :
    light_rotation (t + 20) = light_rotation t := by
  rw [light_rotation_eval, light_rotation_eval]
  have hb : (t + 20) * Real.pi / 10 = t * Real.pi / 10 + 2 * Real.pi := by ring
  rw [hb, Real.cos_add_two_pi, Real.sin_add_two_pi]

/-- Negating a quaternion leaves its rotation action on vectors unchanged
(the action is quadratic in the components). -/
theorem Quat.rotate_neg (q : Quat) (v : Vec3) :
    (Quat.neg q).rotate v = q.rotate v := by
  refine vec3_ext_components ?_ ?_ ?_ <;> simp [Quat.rotate, Quat.neg] <;> ring

/-- The default `StandardMaterial` (white base color, `0.5` roughness, no
metallic), used to instantiate witnesses. -/
def StandardMaterial.sample : StandardMaterial :=
  { base_color := LinearRgba.rgb 1 1 1, perceptual_roughness := 0.5, metallic := 0 }

/-- A sample world entity carrying a `DirectionalLight`. -/
noncomputable def sampleLight : LightEntity :=
  { hasDirectionalLight := true
    transform :=
      { translation := { x := 1, y := 2, z := 3 }
        rotation := { x := 0, y := 0, z := 0, w := 1 }
        scale := { x := 1, y := 1, z := 1 } } }

/-- A sample world entity without a `DirectionalLight`. -/
noncomputable def sampleCamera : LightEntity :=
  { hasDirectionalLight := false
    transform :=
      { translation := { x := 3, y := 2, z := 0 }
        rotation := { x := 0, y := 0, z := 0, w := 1 }
        scale := { x := 1, y := 1, z := 1 } } }

/-! ## Claims -/

/-- Claim C3: when the metadata string is absent (`None`), the adapter
`from_standard_material` returns the documented default
`ToonParameters {cutoff: 0.5, dark: (0.4,0.4,0.4), light: (0.8,0.8,0.8)}`. -/
theorem from_standard_material_absent (m : StandardMaterial) :
    ToonShader.from_standard_material m none =
      { cutoff := 0.5
        dark := LinearRgba.rgb 0.4 0.4 0.4
        light := LinearRgba.rgb 0.8 0.8 0.8 } := rfl

/-- Claim C5: the adapter's output does not depend on the base standard
material: for all materials `m1`, `m2` and every optional metadata string
`s`, `from_standard_material m1 s = from_standard_material m2 s`; the output
is a function of the metadata alone. -/
theorem from_standard_material_ignores_material
    (m1 m2 : StandardMaterial) (s : Option String) :
    ToonShader.from_standard_material m1 s =
      ToonShader.from_standard_material m2 s := rfl

/-- Claim C9: the fragment-shader binding of the toon material extension is a
static constant: `fragment_shader` is exactly the single shader resource path
`"shaders/toon_shader.wgsl"`, with no runtime state or input dependence. -/
theorem fragment_shader_constant :
    ToonShader.fragment_shader = ShaderRef.path "shaders/toon_shader.wgsl" := rfl

/-- Claim C4: the adapter is a total function with no error channel: for every
material and every optional metadata string its result is a fully populated
`ToonShader` — either the documented default, or, when the string is present
and deserializes, exactly the parsed value; a parse error never escapes. -/
theorem from_standard_material_total (m : StandardMaterial) (s : Option String) :
    ToonShader.from_standard_material m s =
        { cutoff := 0.5
          dark := LinearRgba.rgb 0.4 0.4 0.4
          light := LinearRgba.rgb 0.8 0.8 0.8 } ∨
      ∃ str v, s = some str ∧ serde_json_from_str str = .ok v ∧
        ToonShader.from_standard_material m s = v := by
  cases s with
  | none => exact Or.inl rfl
  | some str =>
    cases h : serde_json_from_str str with
    | error e =>
      exact Or.inl (by simp [ToonShader.from_standard_material, h, Except.toOption])
    | ok v =>
      exact Or.inr ⟨str, v, rfl, h,
        by simp [ToonShader.from_standard_material, h, Except.toOption]⟩

/-- Claim C2: for every metadata string that deserializes to all three fields,
the adapter returns the parsed values exactly, field for field (the witness
instantiates this at `\x7b"cutoff":0.2,"dark":[0,0,0,1],"light":[1,1,1,1]\x7d`,
which yields cutoff `0.2`, dark black, light white). -/
theorem from_standard_material_parsed
    (m : StandardMaterial) (s : String) (v : ToonShader)
    (h : serde_json_from_str s = .ok v) :
    ToonShader.from_standard_material m (some s) = v := by
  simp [ToonShader.from_standard_material, h, Except.toOption]

/-- Witness for C2: the spec's example metadata parses to
`cutoff 0.2, dark (0,0,0,1), light (1,1,1,1)` and the adapter returns exactly
that value. -/
theorem from_standard_material_parsed_witness :
    serde_json_from_str "\x7b\"cutoff\":0.2,\"dark\":[0,0,0,1],\"light\":[1,1,1,1]\x7d" =
        .ok { cutoff := 0.2
              dark := { red := 0, green := 0, blue := 0, alpha := 1 }
              light := { red := 1, green := 1, blue := 1, alpha := 1 } } ∧
      ToonShader.from_standard_material StandardMaterial.sample
          (some "\x7b\"cutoff\":0.2,\"dark\":[0,0,0,1],\"light\":[1,1,1,1]\x7d") =
        { cutoff := 0.2
          dark := { red := 0, green := 0, blue := 0, alpha := 1 }
          light := { red := 1, green := 1, blue := 1, alpha := 1 } } :=
  ⟨by with_unfolding_all decide, from_standard_material_parsed StandardMaterial.sample _ _ (by with_unfolding_all decide)⟩

/-- Counterexample for C1: a metadata string carrying the three fields plus an
extra unknown field is classified as malformed by the claim, yet the adapter
does not return the default — serde ignores unknown fields and the parse
succeeds. -/
theorem from_standard_material_unknown_field_not_default :
    ToonShader.from_standard_material StandardMaterial.sample
        (some "\x7b\"cutoff\":0.2,\"dark\":[0,0,0,1],\"light\":[1,1,1,1],\"shadow\":true\x7d") ≠
      { cutoff := 0.5
        dark := LinearRgba.rgb 0.4 0.4 0.4
        light := LinearRgba.rgb 0.8 0.8 0.8 } := by
  with_unfolding_all decide

/-- Claim C1 as amended: for every metadata string on which deserialization
fails (truncated JSON, wrong field types, or a missing `cutoff`/`dark`/`light`
field — but not merely extra unknown fields, which serde ignores), the adapter
returns exactly the full default, never a mix of parsed fields with
defaults. -/
theorem from_standard_material_parse_failure_default
    (m : StandardMaterial) (s : String)
    (h : (serde_json_from_str s).toOption = none) :
    ToonShader.from_standard_material m (some s) =
      { cutoff := 0.5
        dark := LinearRgba.rgb 0.4 0.4 0.4
        light := LinearRgba.rgb 0.8 0.8 0.8 } := by
  simp [ToonShader.from_standard_material, h]

/-- Witness for amended C1: a truncated metadata string fails to parse and the
adapter returns the full default. -/
theorem from_standard_material_parse_failure_default_witness :
    (serde_json_from_str "\x7b\"cutoff\":0.2,\"dark\":[0,0").toOption = none ∧
      ToonShader.from_standard_material StandardMaterial.sample
          (some "\x7b\"cutoff\":0.2,\"dark\":[0,0") =
        { cutoff := 0.5
          dark := LinearRgba.rgb 0.4 0.4 0.4
          light := LinearRgba.rgb 0.8 0.8 0.8 } :=
  ⟨by with_unfolding_all decide,
   from_standard_material_parse_failure_default StandardMaterial.sample _ (by with_unfolding_all decide)⟩

/-- Claim C10: whenever the default is returned (absent metadata, or a present
string whose parse fails), the default dark and light colors carry an alpha
component of `1`: dark is RGBA `(0.4, 0.4, 0.4, 1)` and light is RGBA
`(0.8, 0.8, 0.8, 1)`. -/
theorem default_colors_have_alpha_one
    (m : StandardMaterial) (s : Option String)
    (h : (s.bind fun str => (serde_json_from_str str).toOption) = none) :
    (ToonShader.from_standard_material m s).dark =
        { red := 0.4, green := 0.4, blue := 0.4, alpha := 1 } ∧
      (ToonShader.from_standard_material m s).light =
        { red := 0.8, green := 0.8, blue := 0.8, alpha := 1 } := by
  constructor <;> simp [ToonShader.from_standard_material, h, LinearRgba.rgb]

/-- Witness for C10: on the unparsable metadata `"not json"` the adapter's
dark and light colors are the defaults with alpha `1`. -/
theorem default_colors_have_alpha_one_witness :
    ((some "not json").bind fun str => (serde_json_from_str str).toOption) = none ∧
      (ToonShader.from_standard_material StandardMaterial.sample (some "not json")).dark =
        { red := 0.4, green := 0.4, blue := 0.4, alpha := 1 } ∧
      (ToonShader.from_standard_material StandardMaterial.sample (some "not json")).light =
        { red := 0.8, green := 0.8, blue := 0.8, alpha := 1 } :=
  ⟨by with_unfolding_all decide,
   (default_colors_have_alpha_one StandardMaterial.sample (some "not json") (by with_unfolding_all decide)).1,
   (default_colors_have_alpha_one StandardMaterial.sample (some "not json") (by with_unfolding_all decide)).2⟩

/-- Claim C6: on a scheduled frame, every entity carrying a directional-light
component has its rotation set to
`Quat::from_euler(EulerRot::ZYX, 0, elapsed_seconds * π / 5, -π/4)` — the
Z-Y-X Euler composition of rotate-about-Z by `0`, rotate-about-Y by
`elapsed × π/5`, rotate-about-X by `-π/4` — a function of the elapsed time
only. -/
theorem animate_light_direction_sets_rotation
    (time : Time) (world : List LightEntity) (i : Nat) (e : LightEntity)
    (he : world[i]? = some e) (hd : e.hasDirectionalLight = true) :
    ∃ e', (animate_light_direction time world)[i]? = some e' ∧
      e'.transform.rotation =
        Quat.from_euler .ZYX 0 (time.elapsed_seconds * Real.pi / 5)
          (-(Real.pi / 4)) := by
  refine ⟨{ e with transform :=
      { e.transform with rotation := light_rotation time.elapsed_seconds } },
    ?_, rfl⟩
  simp [animate_light_direction, List.getElem?_map, he, hd]

/-- Witness for C6: in a one-entity world holding a directional light, the
system writes the Euler-composition rotation for elapsed time `0`. -/
theorem animate_light_direction_sets_rotation_witness :
    ([sampleLight] : List LightEntity)[0]? = some sampleLight ∧
      sampleLight.hasDirectionalLight = true ∧
      ∃ e', (animate_light_direction { elapsed_seconds := 0 } [sampleLight])[0]? = some e' ∧
        e'.transform.rotation =
          Quat.from_euler .ZYX 0 ((0 : ℝ) * Real.pi / 5) (-(Real.pi / 4)) :=
  ⟨rfl, rfl,
   animate_light_direction_sets_rotation { elapsed_seconds := 0 } [sampleLight] 0
     sampleLight rfl rfl⟩

/-- Claim C8: the light animator writes only the rotation field: every
entity's directional-light marker, translation and scale are unchanged, and an
entity without a directional-light component is left entirely unchanged. -/
theorem animate_light_direction_frame_effect
    (time : Time) (world : List LightEntity) (i : Nat) (e : LightEntity)
    (he : world[i]? = some e) :
    ∃ e', (animate_light_direction time world)[i]? = some e' ∧
      e'.hasDirectionalLight = e.hasDirectionalLight ∧
      e'.transform.translation = e.transform.translation ∧
      e'.transform.scale = e.transform.scale ∧
      (e.hasDirectionalLight = false → e' = e) := by
  cases hd : e.hasDirectionalLight with
  | true =>
    refine ⟨{ e with transform :=
        { e.transform with rotation := light_rotation time.elapsed_seconds } },
      ?_, hd, rfl, rfl, by simp⟩
    simp [animate_light_direction, List.getElem?_map, he, hd]
  | false =>
    refine ⟨e, ?_, hd, rfl, rfl, fun _ => rfl⟩
    simp [animate_light_direction, List.getElem?_map, he, hd]

/-- Witness for C8: an entity without a directional light passes through the
system entirely unchanged. -/
theorem animate_light_direction_frame_effect_witness :
    ([sampleCamera] : List LightEntity)[0]? = some sampleCamera ∧
      ∃ e', (animate_light_direction { elapsed_seconds := 7 } [sampleCamera])[0]? = some e' ∧
        e'.hasDirectionalLight = sampleCamera.hasDirectionalLight ∧
        e'.transform.translation = sampleCamera.transform.translation ∧
        e'.transform.scale = sampleCamera.transform.scale ∧
        (sampleCamera.hasDirectionalLight = false → e' = sampleCamera) :=
  ⟨rfl,
   animate_light_direction_frame_effect { elapsed_seconds := 7 } [sampleCamera] 0
     sampleCamera rfl⟩

/-- Counterexample for C7: the quaternion the system computes is not
`10`-periodic as a value — at `t = 0` the quaternions computed for elapsed
times `0 + 10` and `0` differ (their scalar parts are `-cos(π/8) cos(π/8)⁻¹`
apart in sign). -/
theorem light_rotation_not_ten_periodic_at_zero :
    light_rotation (0 + 10) ≠ light_rotation 0 := by
  intro h
  have hw := congrArg Quat.w h
  rw [light_rotation_eval, light_rotation_eval] at hw
  simp only at hw
  have h1 : ((0 : ℝ) + 10) * Real.pi / 10 = Real.pi := by ring
  have h2 : (0 : ℝ) * Real.pi / 10 = 0 := by ring
  rw [h1, h2, Real.cos_pi, Real.cos_zero, Real.cos_neg] at hw
  have hpos : 0 < Real.cos (Real.pi / 8) :=
    Real.cos_pos_of_mem_Ioo
      ⟨by linarith [Real.pi_pos], by linarith [Real.pi_pos]⟩
  linarith

/-- Claim C7 as amended: for every elapsed time `t ≥ 0`, advancing by `10`
seconds negates the computed quaternion, which therefore represents the same
spatial rotation (it acts identically on every vector); the quaternion value
itself is periodic with period `20`. -/
theorem light_rotation_period_structure (t : ℝ) (_h : 0 ≤ t) :
    light_rotation (t + 10) = (light_rotation t).neg ∧
      (∀ v : Vec3, (light_rotation (t + 10)).rotate v = (light_rotation t).rotate v) ∧
      light_rotation (t + 20) = light_rotation t :=
  ⟨light_rotation_add_ten t,
   fun v => by rw [light_rotation_add_ten, Quat.rotate_neg],
   light_rotation_add_twenty t⟩

/-- Witness for amended C7: the period structure instantiated at `t = 0` and
the vector `(1, 2, 3)`. -/
theorem light_rotation_period_structure_witness :
    (0 : ℝ) ≤ 0 ∧
      light_rotation (0 + 10) = (light_rotation 0).neg ∧
      (light_rotation (0 + 10)).rotate { x := 1, y := 2, z := 3 } =
        (light_rotation 0).rotate { x := 1, y := 2, z := 3 } ∧
      light_rotation (0 + 20) = light_rotation 0 :=
  ⟨le_refl 0,
   (light_rotation_period_structure 0 (le_refl 0)).1,
   (light_rotation_period_structure 0 (le_refl 0)).2.1 { x := 1, y := 2, z := 3 },
   (light_rotation_period_structure 0 (le_refl 0)).2.2⟩

end LoadGltfToon
